import Mathlib

/-!
Shallow embedding of the reveal-interact core
(`api/packages/arch/src/architecture.ts`, `api/packages/arch/src/data-store.ts`,
`api/packages/infra-docker/src/entrypoints/ws-server.ts`) and proofs about the
session identity, authorization and realtime-synchronization engine.

Conventions of the embedding:
* JavaScript objects become Lean structures with the same field names.
* The pluggable document stores (the in-memory map backend used by the tests:
  a `Map` whose `store` replaces the value list under a key with the single new
  document and whose `get` returns the stored list or `[]`) are modelled as
  functions `String → List α` with an update operation.
* Node `crypto`, `JSON.parse`, `Buffer` base64url decoding and `encodeURI` are
  modelled by an abstract `CryptoOracle` record of total functions; `verify`
  returning `false` also covers the case of the underlying call throwing inside
  the `try` block.
* `throw new Error(msg)` becomes `Except.error msg`; every API handler returns
  its result together with the stores after the call (all writes in the source
  happen after all checks, so error paths return the input stores unchanged)
  and the list of `ctx.setCookie` calls it performed.
* Nondeterministic inputs (`generateId()`, `Date.now()`) are explicit
  parameters.
-/
/-- Payload carried in a signed token: `{ name, date }` (types.ts `SessionToken`). -/
structure SessionToken where
  name : String
  date : String
deriving DecidableEq, Repr

/-- Session record as built by `newSessionFunction` in architecture.ts. -/
structure Session where
  token : String
  userToken : String
  page : String
  state : String
  uid : String
  apiUrl : String
  webUiUrl : String
  wsUrl : Option String
deriving DecidableEq, Repr

/-- Host record: `{ token, uid }`. -/
structure Host where
  token : String
  uid : String
deriving DecidableEq, Repr

/-- User record: `{ token, uid }`. -/
structure User where
  token : String
  uid : String
deriving DecidableEq, Repr

/-- Reaction record as built by `reactFunction` in architecture.ts:
`{ time, token, uid, page, reaction }`.  Note: no `id` and no `sessionUid`
field is present in the document the source constructs. -/
structure Reaction where
  time : Nat
  token : String
  uid : String
  page : String
  reaction : String
deriving DecidableEq, Repr

/-- Body of `newSession`: `{ userToken, apiUrl, webUiUrl, wsUrl? }`. -/
structure CreateSessionRequest where
  userToken : String
  apiUrl : String
  webUiUrl : String
  wsUrl : Option String
deriving DecidableEq, Repr

/-- Response of `newSession`: `{ token, hostUid, sessionUid }`. -/
structure NewSessionResponse where
  token : String
  hostUid : String
  sessionUid : String
deriving DecidableEq, Repr

/-- Response of `login`: `{ uid }`. -/
structure LoginResponse where
  uid : String
deriving DecidableEq, Repr

/-- Response of the public `getSession`: `{ userToken, apiUrl, webUiUrl, wsUrl? }`. -/
structure GetSessionResponse where
  userToken : String
  apiUrl : String
  webUiUrl : String
  wsUrl : Option String
deriving DecidableEq, Repr

/-- WebSocket message shape `{ type: "state_change", sid, page, state }`
(types.ts `StateChangeMessage`; the constant `type` tag is left implicit). -/
structure StateChangeMessage where
  sid : String
  page : String
  state : String
deriving DecidableEq, Repr

/-- The parts of `RequestContext` the handlers read: `ctx.headers`,
`ctx.cookies` and `ctx.env.PUBLIC_KEY`. -/
structure RequestContext where
  headers : List (String × String)
  cookies : List (String × String)
  publicKey : Option String
deriving DecidableEq, Repr

/-- Abstract model of the Node `crypto` / `Buffer` / `JSON` primitives used by
`verifyToken`, plus `encodeURI` used by `newSessionFunction`. -/
structure CryptoOracle where
  /-- `crypto.createVerify("SHA256")` + `verifier.verify(publicKey, signature)`
  over the decoded payload; `false` also models a throwing call. -/
  verify : String → String → String → Bool
  /-- `Buffer.from(s, "base64url")` (lenient, total in Node). -/
  b64decode : String → String
  /-- `JSON.parse` of the decoded payload as a `SessionToken`; `none` models a
  parse exception. -/
  parseJson : String → Option SessionToken
  /-- `encodeURI`. -/
  encodeURI : String → String

/-- A document store backend keyed by strings.  Mirrors the in-memory backend
(`test/setup.ts` `InMemoryStore`): a map whose `store` replaces the entry list
under the key by `[doc]` and whose `get` returns the stored list or `[]`. -/
def Store (α : Type) : Type := String → List α

/-- `store(key, doc)`: last write under a key replaces the previous document. -/
def storePut {α : Type} (s : Store α) (k : String) (v : α) : Store α :=
  fun k' => if k' = k then [v] else s k'

/-- The empty store. -/
def emptyStore {α : Type} : Store α := fun _ => []

/-- The four data stores declared in architecture.ts. -/
structure Stores where
  sessionStore : Store Session
  hostStore : Store Host
  userStore : Store User
  reactionStore : Store Reaction

/-- `new DataStore<Session>(arch, "session-store")` declares no index fields. -/
def sessionStoreIndices : List String := []

/-- `new DataStore<Reaction>(arch, "reaction-store")` declares no index fields. -/
def reactionStoreIndices : List String := []

/-- `DataStore.list(filters?)` from data-store.ts: throws when a non-empty
filter object is passed but the store declares zero indices, otherwise
delegates to the backend `listFunction`. -/
def dataStoreList {α : Type} (indices : List String)
    (backendList : Option (List (String × String)) → List α)
    (filters : Option (List (String × String))) : Except String (List α) :=
  match filters with
  | some fs =>
    if fs.length ≠ 0 ∧ indices.length = 0 then
      .error "Cannot filter by fields when no indices are defined for this DataStore"
    else
      .ok (backendList (some fs))
  | none => .ok (backendList none)

/-- Character-level splitter behind `token.split(".")`: splitting on a single
dot, with JavaScript semantics (an empty string yields `[""]`, adjacent or
trailing dots yield empty segments). -/
def splitDotChars : List Char → List (List Char)
  | [] => [[]]
  | c :: rest =>
    match splitDotChars rest with
    | [] => [[]]
    | seg :: segs =>
      if c = '.' then [] :: seg :: segs
      else (c :: seg) :: segs

/-- `token.split(".")`. -/
def splitDot (token : String) : List String :=
  (splitDotChars token.data).map String.mk

/-- `verifyToken(token, publicKey)` from architecture.ts.  Returns
`Except.error _` for the missing-key throw (a falsy `publicKey`, i.e. absent or
empty), `.ok none` for the `null` results and `.ok (some payload)` on success.
The two-branch `match` on `token.split(".")` mirrors the
`parts.length !== 2` check followed by the destructuring of the two parts. -/
def verifyToken (o : CryptoOracle) (token : String) (publicKey : Option String) :
    Except String (Option SessionToken) :=
  match publicKey with
  | none => .error "PUBLIC_KEY environment variable is required"
  | some pk =>
    if pk = "" then .error "PUBLIC_KEY environment variable is required"
    else
      match splitDot token with
      | [payloadB64, signatureB64] =>
        let payload := o.b64decode payloadB64
        let signature := o.b64decode signatureB64
        if o.verify pk payload signature then
          match o.parseJson payload with
          | some p => .ok (some p)
          | none => .ok none
        else .ok none
      | _ => .ok none

/-- `getVerifiedToken(ctx)`: reads the `x-session-token` header (missing or
empty is falsy), verifies it and returns the raw token string. -/
def getVerifiedToken (o : CryptoOracle) (ctx : RequestContext) : Except String String :=
  match ctx.headers.lookup "x-session-token" with
  | none => .error "Missing x-session-token header"
  | some token =>
    if token = "" then .error "Missing x-session-token header"
    else
      match verifyToken o token ctx.publicKey with
      | .error e => .error e
      | .ok none => .error "Invalid token"
      | .ok (some _) => .ok token

/-- `getVerifiedSessionAsHost(sessionUid, ctx)`. -/
def getVerifiedSessionAsHost (o : CryptoOracle) (s : Stores) (sessionUid : String)
    (ctx : RequestContext) : Except String (String × Session) :=
  match getVerifiedToken o ctx with
  | .error e => .error e
  | .ok token =>
    match s.sessionStore sessionUid with
    | [] => .error "Session not found"
    | session :: _ =>
      if session.token = token then .ok (token, session)
      else .error "Token does not match session"

/-- `getVerifiedSessionAsUser(sessionUid, ctx)`. -/
def getVerifiedSessionAsUser (o : CryptoOracle) (s : Stores) (sessionUid : String)
    (ctx : RequestContext) : Except String (String × Session) :=
  match getVerifiedToken o ctx with
  | .error e => .error e
  | .ok userToken =>
    match s.sessionStore sessionUid with
    | [] => .error "Session not found"
    | session :: _ =>
      if session.userToken = userToken then .ok (userToken, session)
      else .error "Token does not match session"

/-- `newSessionFunction` from architecture.ts.  `hostUid` and `sessionUid` are
the two `generateId()` results, passed explicitly.  The returned triple is
(result, stores after the call, `setCookie` calls made). -/
def newSessionFunction (o : CryptoOracle) (s : Stores) (body : CreateSessionRequest)
    (ctx : RequestContext) (hostUid sessionUid : String) :
    Except String NewSessionResponse × Stores × List (String × String) :=
  match getVerifiedToken o ctx with
  | .error e => (.error e, s, [])
  | .ok token =>
    match verifyToken o body.userToken ctx.publicKey with
    | .error e => (.error e, s, [])
    | .ok none => (.error "Invalid user token", s, [])
    | .ok (some _) =>
      let sessionData : Session :=
        { token := token
          userToken := body.userToken
          page := "0"
          state := "init"
          uid := sessionUid
          apiUrl := body.apiUrl
          webUiUrl := body.webUiUrl ++ "?apiUrl=" ++ o.encodeURI body.apiUrl
                        ++ "&sessionUid=" ++ sessionUid
          wsUrl := body.wsUrl }
      (.ok { token := token, hostUid := hostUid, sessionUid := sessionUid },
       { s with
          hostStore := storePut s.hostStore token { token := token, uid := hostUid }
          sessionStore := storePut (storePut s.sessionStore token sessionData)
                            sessionUid sessionData },
       [("token", token), ("uid", hostUid)])

/-- `loginFunction` from architecture.ts.  `genUid` is the `generateId()`
result used when no (truthy) `uid` cookie is present. -/
def loginFunction (o : CryptoOracle) (s : Stores) (sessionUid : String)
    (ctx : RequestContext) (genUid : String) :
    Except String LoginResponse × Stores × List (String × String) :=
  match getVerifiedSessionAsUser o s sessionUid ctx with
  | .error e => (.error e, s, [])
  | .ok (userToken, _session) =>
    match ctx.cookies.lookup "uid" with
    | some existingUid =>
      if existingUid = "" then
        (.ok { uid := genUid },
         { s with userStore := storePut s.userStore userToken
                                 { token := userToken, uid := genUid } },
         [("uid", genUid), ("token", userToken)])
      else
        (.ok { uid := existingUid }, s, [])
    | none =>
      (.ok { uid := genUid },
       { s with userStore := storePut s.userStore userToken
                               { token := userToken, uid := genUid } },
       [("uid", genUid), ("token", userToken)])

/-- `reactFunction` from architecture.ts.  `now` is the `Date.now()` value. -/
def reactFunction (o : CryptoOracle) (s : Stores) (sessionUid uid page reaction : String)
    (ctx : RequestContext) (now : Nat) : Except String Bool × Stores :=
  match getVerifiedSessionAsUser o s sessionUid ctx with
  | .error e => (.error e, s)
  | .ok (userToken, _session) =>
    match ctx.cookies.lookup "uid" with
    | none => (.error "Not authorized: user id mismatch", s)
    | some cookieUid =>
      if cookieUid = "" ∨ cookieUid ≠ uid then
        (.error "Not authorized: user id mismatch", s)
      else
        if (s.userStore userToken).any (fun u => u.uid == uid) then
          (.ok true,
           { s with reactionStore :=
              (storePut s.reactionStore userToken
                ⟨now, userToken, uid, page, reaction⟩) })
        else
          (.error "Not authorized: user not registered for this session", s)

/-- `setStateFunction` from architecture.ts.  The third component records the
WebSocket broadcast calls performed by the handler: the source performs none
(the handler body only reads the host store and writes the session store), so
it is `[]` on every path. -/
def setStateFunction (o : CryptoOracle) (s : Stores) (sessionUid page state : String)
    (ctx : RequestContext) :
    Except String Bool × Stores × List StateChangeMessage :=
  match getVerifiedSessionAsHost o s sessionUid ctx with
  | .error e => (.error e, s, [])
  | .ok (token, existing) =>
    let hosts := s.hostStore token
    let isHost := match ctx.cookies.lookup "uid" with
      | none => false
      | some hostUid => hosts.any (fun h => h.uid == hostUid)
    if isHost then
      let sessionDoc : Session :=
        { token := token
          userToken := existing.userToken
          page := page
          state := state
          uid := existing.uid
          apiUrl := existing.apiUrl
          webUiUrl := existing.webUiUrl
          wsUrl := existing.wsUrl }
      (.ok true,
       { s with sessionStore := storePut (storePut s.sessionStore token sessionDoc)
                   existing.uid sessionDoc },
       [])
    else
      (.error "Not authorized: only host can set state", s, [])

/-- `getStateFunction` from architecture.ts.  The `try`/`catch` around the host
path becomes a `match`: a throw anywhere inside the host attempt falls through
to the user attempt, whose errors propagate. -/
def getStateFunction (o : CryptoOracle) (s : Stores) (sessionUid : String)
    (ctx : RequestContext) : Except String Session :=
  match ctx.cookies.lookup "uid" with
  | none => .error "Not authorized: must be logged in"
  | some userUid =>
    if userUid = "" then .error "Not authorized: must be logged in"
    else
      match getVerifiedSessionAsHost o s sessionUid ctx with
      | .ok (token, session) =>
        let isHost := (s.hostStore token).any (fun h => h.uid == userUid)
        if isHost then .ok session
        else .error "Not authorized: user not registered for this session"
      | .error _ =>
        match getVerifiedSessionAsUser o s sessionUid ctx with
        | .error e => .error e
        | .ok (userToken, session) =>
          let isUser := (s.userStore userToken).any (fun u => u.uid == userUid)
          if isUser then .ok session
          else .error "Not authorized: user not registered for this session"

/-- `getSessionFunction` from architecture.ts: public lookup, no auth. -/
def getSessionFunction (s : Stores) (sessionUid : String) : Option GetSessionResponse :=
  match s.sessionStore sessionUid with
  | [] => none
  | session :: _ =>
    some { userToken := session.userToken
           apiUrl := session.apiUrl
           webUiUrl := session.webUiUrl
           wsUrl := session.wsUrl }

/-- Connection role in ws-server.ts (`type: "host" | "user"`). -/
inductive ConnRole where
  | host
  | user
deriving DecidableEq, Repr

/-- A live WebSocket connection entry from ws-server.ts; `isOpen` models
`ws.readyState === WebSocket.OPEN`. -/
structure Connection where
  role : ConnRole
  sessionUid : String
  uid : String
  isOpen : Bool
deriving DecidableEq, Repr

/-- The ws-server registry `Map<string, Connection[]>` keyed by session uid. -/
def Registry : Type := List (String × List Connection)

/-- `connections.get(sessionUid) || []`. -/
def registryGet (c : Registry) (k : String) : List Connection :=
  ((c : List (String × List Connection)).lookup k).getD []

/-- `Map.set` on the registry. -/
def registrySet (c : Registry) (k : String) (v : List Connection) : Registry :=
  (k, v) :: (c : List (String × List Connection)).filter (fun p => !(p.1 == k))

/-- `addConnection(conn)` from ws-server.ts. -/
def addConnection (c : Registry) (conn : Connection) : Registry :=
  registrySet c conn.sessionUid (registryGet c conn.sessionUid ++ [conn])

/-- `broadcastToSession(sessionUid, message)` from ws-server.ts, modelled as
the list of connections the message is sent to: every registered connection of
the session whose role is `user` and whose socket is open. -/
def broadcastToSession (c : Registry) (sessionUid : String) : List Connection :=
  (registryGet c sessionUid).filter (fun conn => conn.role == ConnRole.user && conn.isOpen)

/-- A concrete oracle under which every signature verifies and every payload
parses; used for concrete runs. -/
def oracleAllValid : CryptoOracle :=
  { verify := fun _ _ _ => true
    b64decode := fun s => s
    parseJson := fun _ => some { name := "n", date := "d" }
    encodeURI := fun s => s }

/-- Stores with nothing in them. -/
def storesEmpty : Stores :=
  { sessionStore := emptyStore, hostStore := emptyStore
    userStore := emptyStore, reactionStore := emptyStore }

/-- Concrete host credential (two dot-separated segments). -/
def hostTok : String := "h.t"

/-- Concrete user credential (two dot-separated segments). -/
def userTok : String := "u.t"

/-- Host request context: token header plus the host `uid` cookie. -/
def ctxHost : RequestContext :=
  { headers := [("x-session-token", hostTok)]
    cookies := [("uid", "host1")]
    publicKey := some "pk" }

/-- User request context with the `uid` cookie of a registered user. -/
def ctxUser : RequestContext :=
  { headers := [("x-session-token", userTok)]
    cookies := [("uid", "u1")]
    publicKey := some "pk" }

/-- User request context without any `uid` cookie (first visit). -/
def ctxUserNoCookie : RequestContext :=
  { headers := [("x-session-token", userTok)]
    cookies := []
    publicKey := some "pk" }

/-- `newSession` body used in the concrete runs. -/
def bodyDemo : CreateSessionRequest :=
  { userToken := userTok, apiUrl := "https://a", webUiUrl := "https://w", wsUrl := none }

/-- The session document `newSessionFunction` builds from `bodyDemo` with
generated ids `host1` / `sess1`. -/
def sessDemo : Session :=
  { token := hostTok, userToken := userTok, page := "0", state := "init"
    uid := "sess1", apiUrl := "https://a"
    webUiUrl := "https://w?apiUrl=https://a&sessionUid=sess1", wsUrl := none }

/-- Stores as they stand after the concrete `newSession` run: the session
under both keys and the host record. -/
def storesAfterNew : Stores :=
  { sessionStore := storePut (storePut emptyStore hostTok sessDemo) "sess1" sessDemo
    hostStore := storePut emptyStore hostTok { token := hostTok, uid := "host1" }
    userStore := emptyStore
    reactionStore := emptyStore }

/-- Stores after the concrete `login` run of user `u1`. -/
def storesAfterLogin : Stores :=
  { storesAfterNew with
      userStore := storePut emptyStore userTok { token := userTok, uid := "u1" } }

/-- Oracle that rejects every signature. -/
def oracleRejectSig : CryptoOracle :=
  { verify := fun _ _ _ => false
    b64decode := fun s => s
    parseJson := fun _ => some { name := "n", date := "d" }
    encodeURI := fun s => s }

/-- Oracle under which signatures verify but no payload parses as JSON. -/
def oracleBadJson : CryptoOracle :=
  { verify := fun _ _ _ => true
    b64decode := fun s => s
    parseJson := fun _ => none
    encodeURI := fun s => s }

/-- An open user-role WebSocket connection for the concrete session. -/
def userConn : Connection :=
  { role := ConnRole.user, sessionUid := "sess1", uid := "u1", isOpen := true }

/-- Registry after the transport registered `userConn`. -/
def registryDemo : Registry := addConnection ([] : Registry) userConn

/-- `storePut` then lookup at the written key. -/
theorem storePut_same {α : Type} (s : Store α) (k : String) (v : α) :
    storePut s k v k = [v] := by
  simp [storePut]

/-- `storePut` leaves other keys unchanged. -/
theorem storePut_other {α : Type} (s : Store α) (k k' : String) (v : α)
    (h : k' ≠ k) : storePut s k v k' = s k' := by
  simp [storePut, h]

/-- Inverting a successful host-session resolution: the header token verified,
the session is the head of the stored list under `sessionUid`, and its host
`token` field equals the header token. -/
theorem getVerifiedSessionAsHost_ok {o : CryptoOracle} {s : Stores}
    {sessionUid : String} {ctx : RequestContext} {t : String} {sess : Session}
    (h : getVerifiedSessionAsHost o s sessionUid ctx = .ok (t, sess)) :
    getVerifiedToken o ctx = .ok t ∧ sess.token = t ∧
      ∃ rest, s.sessionStore sessionUid = sess :: rest := by
  unfold getVerifiedSessionAsHost at h
  cases hT : getVerifiedToken o ctx with
  | error e => rw [hT] at h; simp at h
  | ok token =>
    rw [hT] at h
    cases hS : s.sessionStore sessionUid with
    | nil => rw [hS] at h; simp at h
    | cons session rest =>
      rw [hS] at h
      by_cases hE : session.token = token
      · simp [hE] at h
        obtain ⟨h1, h2⟩ := h
        subst h1; subst h2
        exact ⟨rfl, hE, rest, rfl⟩
      · simp [hE] at h

/-- Inverting a successful user-session resolution. -/
theorem getVerifiedSessionAsUser_ok {o : CryptoOracle} {s : Stores}
    {sessionUid : String} {ctx : RequestContext} {t : String} {sess : Session}
    (h : getVerifiedSessionAsUser o s sessionUid ctx = .ok (t, sess)) :
    getVerifiedToken o ctx = .ok t ∧ sess.userToken = t ∧
      ∃ rest, s.sessionStore sessionUid = sess :: rest := by
  unfold getVerifiedSessionAsUser at h
  cases hT : getVerifiedToken o ctx with
  | error e => rw [hT] at h; simp at h
  | ok token =>
    rw [hT] at h
    cases hS : s.sessionStore sessionUid with
    | nil => rw [hS] at h; simp at h
    | cons session rest =>
      rw [hS] at h
      by_cases hE : session.userToken = token
      · simp [hE] at h
        obtain ⟨h1, h2⟩ := h
        subst h1; subst h2
        exact ⟨rfl, hE, rest, rfl⟩
      · simp [hE] at h

/-- C7: `verifyToken` maps every structural or cryptographic failure to the
`null` result (`.ok none`, not a cause-distinguishing exception): a token
whose dot-split does not have exactly two segments, a token whose signature
fails verification, and a token whose payload does not parse as JSON; and it
throws the configuration error when no public key (or an empty one) is
configured. -/
theorem verifyToken_contract (o : CryptoOracle) (token pk pb sb : String) :
    (verifyToken o token none = .error "PUBLIC_KEY environment variable is required") ∧
    (verifyToken o token (some "") = .error "PUBLIC_KEY environment variable is required") ∧
    (pk ≠ "" → (splitDot token).length ≠ 2 →
      verifyToken o token (some pk) = .ok none) ∧
    (pk ≠ "" → splitDot token = [pb, sb] →
      o.verify pk (o.b64decode pb) (o.b64decode sb) = false →
      verifyToken o token (some pk) = .ok none) ∧
    (pk ≠ "" → splitDot token = [pb, sb] →
      o.parseJson (o.b64decode pb) = none →
      verifyToken o token (some pk) = .ok none) := by
  refine ⟨rfl, rfl, ?_, ?_, ?_⟩
  · intro hpk hlen
    simp only [verifyToken]
    rw [if_neg hpk]
    rcases hsp : splitDot token with _ | ⟨a, tl⟩
    · simp [hsp]
    · rcases tl with _ | ⟨b, tl2⟩
      · simp [hsp]
      · rcases tl2 with _ | ⟨c, tl3⟩
        · exact absurd (show (splitDot token).length = 2 by simp [hsp]) hlen
        · simp [hsp]
  · intro hpk hsp hv
    simp only [verifyToken]
    rw [if_neg hpk]
    simp [hsp, hv]
  · intro hpk hsp hj
    simp only [verifyToken]
    rw [if_neg hpk]
    cases hv : o.verify pk (o.b64decode pb) (o.b64decode sb) <;> simp [hsp, hv, hj]

/-- Witness for `verifyToken_contract`: concrete runs of all five branches. -/
theorem verifyToken_contract_witness :
    (verifyToken oracleAllValid "h.t" none =
      .error "PUBLIC_KEY environment variable is required") ∧
    (verifyToken oracleAllValid "h.t" (some "") =
      .error "PUBLIC_KEY environment variable is required") ∧
    (verifyToken oracleAllValid "nodots" (some "pk") = .ok none) ∧
    (verifyToken oracleRejectSig "h.t" (some "pk") = .ok none) ∧
    (verifyToken oracleBadJson "h.t" (some "pk") = .ok none) :=
  ⟨(verifyToken_contract oracleAllValid "h.t" "pk" "h" "t").1,
   (verifyToken_contract oracleAllValid "h.t" "pk" "h" "t").2.1,
   (verifyToken_contract oracleAllValid "nodots" "pk" "h" "t").2.2.1
     (by decide) (by decide),
   (verifyToken_contract oracleRejectSig "h.t" "pk" "h" "t").2.2.2.1
     (by decide) (by decide) rfl,
   (verifyToken_contract oracleBadJson "h.t" "pk" "h" "t").2.2.2.2
     (by decide) (by decide) rfl⟩

/-- C9: `list(filters)` on a store declared with zero indices and a non-empty
`filters` argument fails with the validation error, for every backend. -/
theorem list_rejects_filters_without_indices {α : Type}
    (indices : List String)
    (backendList : Option (List (String × String)) → List α)
    (filters : List (String × String))
    (hind : indices = []) (hf : filters ≠ []) :
    dataStoreList indices backendList (some filters) =
      .error "Cannot filter by fields when no indices are defined for this DataStore" := by
  subst hind
  simp only [dataStoreList]
  rw [if_pos]
  exact ⟨fun h => hf (List.length_eq_zero.mp h), rfl⟩

/-- Witness for `list_rejects_filters_without_indices` at a concrete store. -/
theorem list_rejects_filters_without_indices_witness :
    dataStoreList sessionStoreIndices (fun _ => ([] : List Session))
      (some [("token", "h.t")]) =
      .error "Cannot filter by fields when no indices are defined for this DataStore" :=
  list_rejects_filters_without_indices sessionStoreIndices
    (fun _ => ([] : List Session)) [("token", "h.t")] rfl (by decide)

/-- C3: `setState` on an existing session with a valid signed credential that
equals the stored user token but not the stored host token fails with the
authorization error and performs no store write: the stores after the call are
exactly the stores before it (so the page and state fields under both stored
keys are untouched). -/
theorem setState_with_user_credential_rejected
    (o : CryptoOracle) (s : Stores) (sessionUid page state t : String)
    (ctx : RequestContext) (sess : Session) (rest : List Session)
    (hT : getVerifiedToken o ctx = .ok t)
    (hS : s.sessionStore sessionUid = sess :: rest)
    (_hUser : sess.userToken = t)
    (hHost : sess.token ≠ t) :
    setStateFunction o s sessionUid page state ctx =
      (.error "Token does not match session", s, []) := by
  simp [setStateFunction, getVerifiedSessionAsHost, hT, hS, hHost]

/-- Witness for `setState_with_user_credential_rejected`: the concrete stores
after `newSession` plus a user-credential request. -/
theorem setState_with_user_credential_rejected_witness :
    setStateFunction oracleAllValid storesAfterNew "sess1" "2" "voting" ctxUser =
      (.error "Token does not match session", storesAfterNew, []) :=
  setState_with_user_credential_rejected oracleAllValid storesAfterNew
    "sess1" "2" "voting" userTok ctxUser sessDemo [] rfl (by decide) rfl (by decide)

/-- C1 (amended): after a successful `newSession`, an immediate
`getSession(sessionUid)` returns the supplied `userToken`, `apiUrl` and
`wsUrl` unchanged, and returns as `webUiUrl` the supplied `webUiUrl` with
`?apiUrl=<encodeURI apiUrl>&sessionUid=<sessionUid>` appended (not the
supplied `webUiUrl` verbatim). -/
theorem newSession_getSession_roundtrip
    (o : CryptoOracle) (s : Stores) (body : CreateSessionRequest)
    (ctx : RequestContext) (hostUid sessionUid : String) (r : NewSessionResponse)
    (hok : (newSessionFunction o s body ctx hostUid sessionUid).1 = .ok r) :
    r.sessionUid = sessionUid ∧
    getSessionFunction (newSessionFunction o s body ctx hostUid sessionUid).2.1
        r.sessionUid =
      some { userToken := body.userToken
             apiUrl := body.apiUrl
             webUiUrl := body.webUiUrl ++ "?apiUrl=" ++ o.encodeURI body.apiUrl
                           ++ "&sessionUid=" ++ sessionUid
             wsUrl := body.wsUrl } := by
  cases hT : getVerifiedToken o ctx with
  | error e => simp [newSessionFunction, hT] at hok
  | ok t =>
    cases hV : verifyToken o body.userToken ctx.publicKey with
    | error e => simp [newSessionFunction, hT, hV] at hok
    | ok vres =>
      cases vres with
      | none => simp [newSessionFunction, hT, hV] at hok
      | some p =>
        simp only [newSessionFunction, hT, hV] at hok ⊢
        simp only [Except.ok.injEq] at hok
        subst hok
        exact ⟨rfl, by simp [getSessionFunction, storePut_same]⟩

/-- Counterexample to C1 as stated: a concrete successful `newSession` whose
immediately following `getSession` does not return the supplied `webUiUrl`
(the stored value has the `apiUrl` and `sessionUid` query parameters
appended). -/
theorem newSession_getSession_webUiUrl_cex :
    (newSessionFunction oracleAllValid storesEmpty bodyDemo ctxHost
        "host1" "sess1").1 =
      .ok { token := hostTok, hostUid := "host1", sessionUid := "sess1" } ∧
    bodyDemo.webUiUrl = "https://w" ∧
    (getSessionFunction
        (newSessionFunction oracleAllValid storesEmpty bodyDemo ctxHost
          "host1" "sess1").2.1 "sess1").map GetSessionResponse.webUiUrl =
      some "https://w?apiUrl=https://a&sessionUid=sess1" ∧
    (getSessionFunction
        (newSessionFunction oracleAllValid storesEmpty bodyDemo ctxHost
          "host1" "sess1").2.1 "sess1").map GetSessionResponse.webUiUrl ≠
      some bodyDemo.webUiUrl := by
  refine ⟨rfl, rfl, rfl, ?_⟩
  decide

/-- Witness for `newSession_getSession_roundtrip` at the concrete run. -/
theorem newSession_getSession_roundtrip_witness :
    ({ token := hostTok, hostUid := "host1",
       sessionUid := "sess1" } : NewSessionResponse).sessionUid = "sess1" ∧
    getSessionFunction
        (newSessionFunction oracleAllValid storesEmpty bodyDemo ctxHost
          "host1" "sess1").2.1
        ({ token := hostTok, hostUid := "host1",
           sessionUid := "sess1" } : NewSessionResponse).sessionUid =
      some { userToken := bodyDemo.userToken
             apiUrl := bodyDemo.apiUrl
             webUiUrl := bodyDemo.webUiUrl ++ "?apiUrl="
                           ++ oracleAllValid.encodeURI bodyDemo.apiUrl
                           ++ "&sessionUid=" ++ "sess1"
             wsUrl := bodyDemo.wsUrl } :=
  newSession_getSession_roundtrip oracleAllValid storesEmpty bodyDemo ctxHost
    "host1" "sess1" _ rfl

/-- Characterization of a successful `setState`: the session store after the
call is the input session store with the updated document written under the
host-token key and then under the session-uid key. -/
theorem setState_ok_store_eq
    (o : CryptoOracle) (s : Stores) (sessionUid page state : String)
    (ctx : RequestContext) (b : Bool) (sess : Session) (rest : List Session)
    (hok : (setStateFunction o s sessionUid page state ctx).1 = .ok b)
    (hS : s.sessionStore sessionUid = sess :: rest) :
    ((setStateFunction o s sessionUid page state ctx).2.1).sessionStore =
      storePut (storePut s.sessionStore sess.token
          { sess with page := page, state := state })
        sess.uid { sess with page := page, state := state } := by
  cases hH : getVerifiedSessionAsHost o s sessionUid ctx with
  | error e => simp [setStateFunction, hH] at hok
  | ok pr =>
    obtain ⟨t, existing⟩ := pr
    obtain ⟨hT, hTok, rest2, hS2⟩ := getVerifiedSessionAsHost_ok hH
    have hcons : sess :: rest = existing :: rest2 := hS.symm.trans hS2
    injection hcons with h1 h2
    subst h1
    cases hC : ctx.cookies.lookup "uid" with
    | none => simp [setStateFunction, hH, hC] at hok
    | some hostUid =>
      cases hA : (s.hostStore t).any (fun h => h.uid == hostUid) with
      | false => simp [setStateFunction, hH, hC, hA] at hok
      | true =>
        simp only [setStateFunction, hH, hC, hA]
        subst hTok
        rfl

/-- C6: a successful (authorized) `setState(sessionUid, page, state)` writes,
under both stored keys, the previously stored session document with only its
`page` and `state` fields replaced; `token`, `userToken`, `uid`, `apiUrl`,
`webUiUrl` and `wsUrl` are carried over unchanged. -/
theorem setState_preserves_other_fields
    (o : CryptoOracle) (s : Stores) (sessionUid page state : String)
    (ctx : RequestContext) (b : Bool) (sess : Session) (rest : List Session)
    (hok : (setStateFunction o s sessionUid page state ctx).1 = .ok b)
    (hS : s.sessionStore sessionUid = sess :: rest) :
    ((setStateFunction o s sessionUid page state ctx).2.1).sessionStore sess.uid =
        [{ sess with page := page, state := state }] ∧
    ((setStateFunction o s sessionUid page state ctx).2.1).sessionStore sess.token =
        [{ sess with page := page, state := state }] := by
  rw [setState_ok_store_eq o s sessionUid page state ctx b sess rest hok hS]
  by_cases hEq : sess.token = sess.uid <;> simp [storePut, hEq]

/-- Witness for `setState_preserves_other_fields` at the concrete host run. -/
theorem setState_preserves_other_fields_witness :
    ((setStateFunction oracleAllValid storesAfterNew "sess1" "2" "voting"
        ctxHost).2.1).sessionStore sessDemo.uid =
      [{ sessDemo with page := "2", state := "voting" }] ∧
    ((setStateFunction oracleAllValid storesAfterNew "sess1" "2" "voting"
        ctxHost).2.1).sessionStore sessDemo.token =
      [{ sessDemo with page := "2", state := "voting" }] :=
  setState_preserves_other_fields oracleAllValid storesAfterNew "sess1" "2"
    "voting" ctxHost true sessDemo [] rfl (by decide)

/-- C5: the session record is stored under both the host token and the public
session uid, and after a successful mutation (`newSession` or `setState`) the
two stored copies are identical. -/
theorem session_dual_key_copies_in_sync
    (o : CryptoOracle) (s : Stores) (body : CreateSessionRequest)
    (ctx ctx2 : RequestContext) (hostUid sessionUid su2 page st : String)
    (r : NewSessionResponse) (b : Bool) (sess : Session) (rest : List Session) :
    ((newSessionFunction o s body ctx hostUid sessionUid).1 = .ok r →
      ((newSessionFunction o s body ctx hostUid sessionUid).2.1).sessionStore r.token =
        ((newSessionFunction o s body ctx hostUid sessionUid).2.1).sessionStore
          r.sessionUid) ∧
    ((setStateFunction o s su2 page st ctx2).1 = .ok b →
      s.sessionStore su2 = sess :: rest →
      ((setStateFunction o s su2 page st ctx2).2.1).sessionStore sess.token =
        ((setStateFunction o s su2 page st ctx2).2.1).sessionStore sess.uid) := by
  constructor
  · intro hok
    cases hT : getVerifiedToken o ctx with
    | error e => simp [newSessionFunction, hT] at hok
    | ok t =>
      cases hV : verifyToken o body.userToken ctx.publicKey with
      | error e => simp [newSessionFunction, hT, hV] at hok
      | ok vres =>
        cases vres with
        | none => simp [newSessionFunction, hT, hV] at hok
        | some p =>
          simp only [newSessionFunction, hT, hV] at hok ⊢
          simp only [Except.ok.injEq] at hok
          subst hok
          by_cases hEq : t = sessionUid <;> simp [storePut, hEq]
  · intro hok hS
    rw [setState_ok_store_eq o s su2 page st ctx2 b sess rest hok hS]
    by_cases hEq : sess.token = sess.uid <;> simp [storePut, hEq]

/-- Witness for `session_dual_key_copies_in_sync`: the concrete `newSession`
and `setState` runs. -/
theorem session_dual_key_copies_in_sync_witness :
    ((newSessionFunction oracleAllValid storesEmpty bodyDemo ctxHost
        "host1" "sess1").2.1).sessionStore hostTok =
      ((newSessionFunction oracleAllValid storesEmpty bodyDemo ctxHost
        "host1" "sess1").2.1).sessionStore "sess1" ∧
    ((setStateFunction oracleAllValid storesAfterNew "sess1" "2" "voting"
        ctxHost).2.1).sessionStore sessDemo.token =
      ((setStateFunction oracleAllValid storesAfterNew "sess1" "2" "voting"
        ctxHost).2.1).sessionStore sessDemo.uid := by
  have h := session_dual_key_copies_in_sync oracleAllValid storesEmpty bodyDemo
    ctxHost ctxHost "host1" "sess1" "sess1" "2" "voting"
    { token := hostTok, hostUid := "host1", sessionUid := "sess1" } true sessDemo []
  have h2 := session_dual_key_copies_in_sync oracleAllValid storesAfterNew bodyDemo
    ctxHost ctxHost "host1" "sess1" "sess1" "2" "voting"
    { token := hostTok, hostUid := "host1", sessionUid := "sess1" } true sessDemo []
  exact ⟨h.1 rfl, h2.2 rfl (by decide)⟩

/-- C8: on a first `login` without an identity marker the generated uid is
returned, one User record is stored and the marker cookies are issued; a
second `login` carrying that marker returns the same uid verbatim, leaves the
user store (and all stores) unchanged and issues no new marker. -/
theorem login_idempotent_reentry
    (o : CryptoOracle) (s : Stores) (sessionUid : String)
    (ctx1 ctx2 : RequestContext) (g1 g2 ut ut2 : String) (sess sess2 : Session)
    (hU1 : getVerifiedSessionAsUser o s sessionUid ctx1 = .ok (ut, sess))
    (hC1 : ctx1.cookies.lookup "uid" = none)
    (hU2 : getVerifiedSessionAsUser o
        { s with userStore := storePut s.userStore ut ⟨ut, g1⟩ } sessionUid ctx2 =
        .ok (ut2, sess2))
    (hC2 : ctx2.cookies.lookup "uid" = some g1)
    (hg : g1 ≠ "") :
    loginFunction o s sessionUid ctx1 g1 =
      (.ok { uid := g1 },
       { s with userStore := storePut s.userStore ut ⟨ut, g1⟩ },
       [("uid", g1), ("token", ut)]) ∧
    loginFunction o { s with userStore := storePut s.userStore ut ⟨ut, g1⟩ }
        sessionUid ctx2 g2 =
      (.ok { uid := g1 },
       { s with userStore := storePut s.userStore ut ⟨ut, g1⟩ },
       []) := by
  constructor
  · simp [loginFunction, hU1, hC1]
  · simp [loginFunction, hU2, hC2, hg]

/-- Witness for `login_idempotent_reentry`: user `u1` logs in twice against
the concrete session. -/
theorem login_idempotent_reentry_witness :
    loginFunction oracleAllValid storesAfterNew "sess1" ctxUserNoCookie "u1" =
      (.ok { uid := "u1" },
       { storesAfterNew with
          userStore := storePut storesAfterNew.userStore userTok ⟨userTok, "u1"⟩ },
       [("uid", "u1"), ("token", userTok)]) ∧
    loginFunction oracleAllValid
        { storesAfterNew with
           userStore := storePut storesAfterNew.userStore userTok ⟨userTok, "u1"⟩ }
        "sess1" ctxUser "u2" =
      (.ok { uid := "u1" },
       { storesAfterNew with
          userStore := storePut storesAfterNew.userStore userTok ⟨userTok, "u1"⟩ },
       []) :=
  login_idempotent_reentry oracleAllValid storesAfterNew "sess1"
    ctxUserNoCookie ctxUser "u1" "u2" userTok userTok sessDemo sessDemo
    rfl rfl rfl rfl (by decide)

/-- C10: when `getState` succeeds for a caller authorized in the user role
(host resolution failed, user resolution succeeded, and the identity marker
belongs to a registered user), it returns the complete stored Session record
head for that session uid, including its `token` (host credential) and
`userToken` fields, not a view restricted to `page` and `state`. -/
theorem getState_returns_full_session_to_user
    (o : CryptoOracle) (s : Stores) (sessionUid uu ut e : String)
    (ctx : RequestContext) (sess : Session)
    (hCk : ctx.cookies.lookup "uid" = some uu) (huu : uu ≠ "")
    (hHostFail : getVerifiedSessionAsHost o s sessionUid ctx = .error e)
    (hU : getVerifiedSessionAsUser o s sessionUid ctx = .ok (ut, sess))
    (hReg : (s.userStore ut).any (fun u => u.uid == uu) = true) :
    getStateFunction o s sessionUid ctx = .ok sess ∧
    ∃ rest, s.sessionStore sessionUid = sess :: rest := by
  refine ⟨?_, (getVerifiedSessionAsUser_ok hU).2.2⟩
  simp [getStateFunction, hCk, huu, hHostFail, hU, hReg]

/-- Witness for `getState_returns_full_session_to_user`: registered user `u1`
reads the state and receives the full stored record (with both credentials). -/
theorem getState_returns_full_session_to_user_witness :
    getStateFunction oracleAllValid storesAfterLogin "sess1" ctxUser =
      .ok sessDemo ∧
    ∃ rest, storesAfterLogin.sessionStore "sess1" = sessDemo :: rest :=
  getState_returns_full_session_to_user oracleAllValid storesAfterLogin
    "sess1" "u1" userTok "Token does not match session" ctxUser sessDemo
    rfl (by decide) rfl rfl (by decide)

/-- C2 (code bug): two identical authorized `react` calls both succeed, but
querying them back with `list({sessionUid, page, uid})` on the reaction store
is impossible: the store is declared with zero indices, so the filtered `list`
fails with the validation error instead of returning the two entries (and the
stored documents carry no `id` or `sessionUid` field at all).  The repository
test suite (architecture.test.ts, `should record multiple reactions ...`)
expects the filtered `list` to return both entries. -/
theorem react_twice_filtered_list_fails :
    (reactFunction oracleAllValid storesAfterLogin "sess1" "u1" "0.0" "thumbsup"
        ctxUser 100).1 = .ok true ∧
    (reactFunction oracleAllValid
        (reactFunction oracleAllValid storesAfterLogin "sess1" "u1" "0.0"
          "thumbsup" ctxUser 100).2
        "sess1" "u1" "0.0" "thumbsup" ctxUser 101).1 = .ok true ∧
    reactionStoreIndices = [] ∧
    dataStoreList reactionStoreIndices
      (fun _ => (reactFunction oracleAllValid
          (reactFunction oracleAllValid storesAfterLogin "sess1" "u1" "0.0"
            "thumbsup" ctxUser 100).2
          "sess1" "u1" "0.0" "thumbsup" ctxUser 101).2.reactionStore userTok)
      (some [("sessionUid", "sess1"), ("page", "0.0"), ("uid", "u1")]) =
      .error "Cannot filter by fields when no indices are defined for this DataStore" :=
  ⟨rfl, rfl, rfl, rfl⟩

/-- C4 (code bug): a fully authorized `setState` succeeds but performs no
WebSocket broadcast at all (its recorded broadcast calls are empty), even
though an open user-role connection is registered for the session and
`broadcastToSession` would deliver exactly to it.  The ws-server only runs
`broadcastToSession` from the host-pipe `onMessage` handler; nothing on the
`setState` path invokes it. -/
theorem setState_performs_no_broadcast :
    (setStateFunction oracleAllValid storesAfterNew "sess1" "2" "voting"
        ctxHost).1 = .ok true ∧
    (setStateFunction oracleAllValid storesAfterNew "sess1" "2" "voting"
        ctxHost).2.2 = ([] : List StateChangeMessage) ∧
    broadcastToSession registryDemo "sess1" = [userConn] :=
  ⟨rfl, rfl, rfl⟩
